import Mathlib

/-!
Verification of the results-aggregation and reporting pipeline of the
`ai-instructions-and-prompts` repository
(`.github/scripts/analyze-results.py`, `check-thresholds.py`,
`generate-report.py`).

The three Python scripts are shallowly embedded below:
JSON result documents become `ResultDoc` values whose optional fields
model Python `dict.get` with defaults; Python numbers become `ℚ`
(exact rational arithmetic; Python `round` half-to-even is `pyRound`);
Python dicts built by insertion become association lists updated by
`updateAssoc` (which preserves insertion order, like CPython dicts);
code that can raise `KeyError` returns `Option`.
-/

namespace AIResults

/-- Python `round` on an exact rational: round half to even (banker's
rounding), as CPython's builtin `round` does. -/
def pyRound (q : ℚ) : Int :=
  let f : Int := Int.floor q
  let frac : ℚ := q - (f : ℚ)
  if frac < 1/2 then f
  else if 1/2 < frac then f + 1
  else if f % 2 = 0 then f else f + 1

/-- Read `l[k]` from an association list, with default `d` for a missing
key (a `defaultdict` read that does not insert; insertion happens through
`updateAssoc`). -/
def lookupD {β : Type} (l : List (String × β)) (k : String) (d : β) : β :=
  match l with
  | [] => d
  | p :: rest => if p.1 = k then p.2 else lookupD rest k d

/-- Python `defaultdict` read-and-mutate `f(d[k])`: if `k` is present its
value is updated in place, otherwise the bucket is created from the
default `d` and appended, preserving CPython dict insertion order. -/
def updateAssoc {β : Type} (l : List (String × β)) (k : String) (d : β) (f : β → β) :
    List (String × β) :=
  match l with
  | [] => [(k, f d)]
  | p :: rest => if p.1 = k then (k, f p.2) :: rest else p :: updateAssoc rest k d f

/-- The `validation` mapping of a test outcome: four optional pattern
lists, each read with default `[]` by the consumers. -/
structure Validation where
  expectedMatches : Option (List String)
  expectedMissing : Option (List String)
  forbiddenFound : Option (List String)
  forbiddenMissing : Option (List String)
deriving DecidableEq

/-- One test outcome inside a result document.  Every field is optional,
mirroring a JSON object read through `dict.get`. -/
structure TestOutcome where
  testId : Option String
  score : Option ℚ
  passed : Option Bool
  output : Option String
  validation : Option Validation
deriving DecidableEq

/-- One result document (one JSON file: one model's run). -/
structure ResultDoc where
  model : Option String
  totalTests : Option Int
  passed : Option Int
  failed : Option Int
  averageScore : Option ℚ
  passRate : Option ℚ
  tests : Option (List TestOutcome)
deriving DecidableEq

/-- `result.get('model', 'unknown')`. -/
def ResultDoc.modelName (r : ResultDoc) : String := r.model.getD "unknown"

/-- `result.get('totalTests', 0)`. -/
def ResultDoc.totalTestsD (r : ResultDoc) : Int := r.totalTests.getD 0

/-- `result.get('passed', 0)`. -/
def ResultDoc.passedD (r : ResultDoc) : Int := r.passed.getD 0

/-- `result.get('failed', 0)`. -/
def ResultDoc.failedD (r : ResultDoc) : Int := r.failed.getD 0

/-- `result.get('averageScore', 0)`. -/
def ResultDoc.averageScoreD (r : ResultDoc) : ℚ := r.averageScore.getD 0

/-- `result.get('passRate', 0)`. -/
def ResultDoc.passRateD (r : ResultDoc) : ℚ := r.passRate.getD 0

/-- `result.get('tests', [])`. -/
def ResultDoc.testsD (r : ResultDoc) : List TestOutcome := r.tests.getD []

/-- `test.get('testId', 'unknown')`. -/
def TestOutcome.testIdD (t : TestOutcome) : String := t.testId.getD "unknown"

/-- `test.get('score', 0)`. -/
def TestOutcome.scoreD (t : TestOutcome) : ℚ := t.score.getD 0

/-- `test.get('passed', False)`. -/
def TestOutcome.passedD (t : TestOutcome) : Bool := t.passed.getD false

/-- `test.get('output', '')`. -/
def TestOutcome.outputD (t : TestOutcome) : String := t.output.getD ""

/-- `test.get('validation', {})`. -/
def TestOutcome.validationD (t : TestOutcome) : Validation :=
  t.validation.getD ⟨none, none, none, none⟩

/-- One threshold breach produced by `check_thresholds`
(`check-thresholds.py` lines 36-52).  The formatted `message` string is
not modelled; it is built from exactly the other four fields. -/
structure Violation where
  model : String
  vtype : String
  value : ℚ
  threshold : Int
deriving DecidableEq

/-- Loop body of `check_thresholds` (`check-thresholds.py` lines 31-52):
append a score violation if `averageScore < min_score`, then a pass-rate
violation if `passRate < min_score`. -/
def checkStep (min_score : Int) (failures : List Violation) (r : ResultDoc) :
    List Violation :=
  let model := r.modelName
  let avg_score := r.averageScoreD
  let pass_rate := r.passRateD
  let failures1 :=
    if avg_score < (min_score : ℚ) then
      failures ++ [⟨model, "score", avg_score, min_score⟩]
    else failures
  if pass_rate < (min_score : ℚ) then
    failures1 ++ [⟨model, "pass_rate", pass_rate, min_score⟩]
  else failures1

/-- `check_thresholds(results, min_score)` (`check-thresholds.py`
lines 26-54). -/
def check_thresholds (results : List ResultDoc) (min_score : Int) : List Violation :=
  results.foldl (checkStep min_score) []

/-- The per-document check described by the specification: a strict
score violation followed by an independent strict pass-rate violation
(refinement target for the claim about `check_thresholds`). -/
def checkDocSpec (min_score : Int) (r : ResultDoc) : List Violation :=
  (if r.averageScoreD < (min_score : ℚ) then
      [⟨r.modelName, "score", r.averageScoreD, min_score⟩]
    else []) ++
  (if r.passRateD < (min_score : ℚ) then
      [⟨r.modelName, "pass_rate", r.passRateD, min_score⟩]
    else [])

/-- Outcome of opening and JSON-parsing one discovered file:
a parsed document, a `json.JSONDecodeError`, or any other exception
(carrying its rendered message). -/
inductive ParseOutcome where
  | ok (doc : ResultDoc)
  | decodeError
  | readError (msg : String)
deriving DecidableEq

/-- Loop body of `load_results` in `analyze-results.py` (lines 19-27):
keep a parsed document; on `JSONDecodeError` or any other exception,
print a warning to stderr and continue. -/
def analyzeLoadStep (acc : List ResultDoc × List String)
    (file : String × ParseOutcome) : List ResultDoc × List String :=
  match file.2 with
  | ParseOutcome.ok d => (acc.1 ++ [d], acc.2)
  | ParseOutcome.decodeError =>
      (acc.1, acc.2 ++ ["Warning: Could not parse " ++ file.1])
  | ParseOutcome.readError e =>
      (acc.1, acc.2 ++ ["Warning: Error loading " ++ file.1 ++ ": " ++ e])

/-- `load_results` of `analyze-results.py` (lines 14-29): returns the
parsed documents in discovery order together with the stderr warning
lines. -/
def analyzeLoadResults (files : List (String × ParseOutcome)) :
    List ResultDoc × List String :=
  files.foldl analyzeLoadStep ([], [])

/-- Loop body of `load_results` in `check-thresholds.py` (lines 16-22):
`except Exception: continue` — a failing file is skipped with no
diagnostic at all. -/
def checkLoadStep (acc : List ResultDoc × List String)
    (file : String × ParseOutcome) : List ResultDoc × List String :=
  match file.2 with
  | ParseOutcome.ok d => (acc.1 ++ [d], acc.2)
  | _ => acc

/-- `load_results` of `check-thresholds.py` (lines 11-24).  The second
component (emitted stderr diagnostics) is always empty. -/
def checkLoadResults (files : List (String × ParseOutcome)) :
    List ResultDoc × List String :=
  files.foldl checkLoadStep ([], [])

/-- Loop body of `load_results` in `generate-report.py` (lines 17-23):
identical silent `except Exception: continue`. -/
def reportLoadStep (acc : List ResultDoc × List String)
    (file : String × ParseOutcome) : List ResultDoc × List String :=
  match file.2 with
  | ParseOutcome.ok d => (acc.1 ++ [d], acc.2)
  | _ => acc

/-- `load_results` of `generate-report.py` (lines 12-25). -/
def reportLoadResults (files : List (String × ParseOutcome)) :
    List ResultDoc × List String :=
  files.foldl reportLoadStep ([], [])

/-- The successfully parsed document of one file, if any (used to state
what the loaders return). -/
def okDoc (file : String × ParseOutcome) : Option ResultDoc :=
  match file.2 with
  | ParseOutcome.ok d => some d
  | _ => none

/-- Whether a file failed to parse (used to count loader diagnostics). -/
def isFailB (file : String × ParseOutcome) : Bool :=
  match file.2 with
  | ParseOutcome.ok _ => false
  | _ => true

/-- The warning line `analyze-results.py` prints for a failing file. -/
def analyzeDiag (file : String × ParseOutcome) : String :=
  match file.2 with
  | ParseOutcome.ok _ => ""
  | ParseOutcome.decodeError => "Warning: Could not parse " ++ file.1
  | ParseOutcome.readError e => "Warning: Error loading " ++ file.1 ++ ": " ++ e

/-- `main` of `check-thresholds.py` (lines 56-90), modelled as
(exit code, whether the empty-input warning was printed, the violations
listed).  Empty input: warning, exit 0.  Violations: listed, exit 1.
Otherwise: success message, exit 0. -/
def checkMain (files : List (String × ParseOutcome)) (min_score : Int) :
    Nat × Bool × List Violation :=
  let results := (checkLoadResults files).1
  if results.isEmpty then (0, true, [])
  else
    let failures := check_thresholds results min_score
    if failures.isEmpty then (0, false, []) else (1, false, failures)

/-- A `by_model` bucket of `calculate_stats` (`analyze-results.py`
lines 37-43). -/
structure ModelStats where
  total_tests : Int
  passed : Int
  failed : Int
  scores : List ℚ
  pass_rates : List ℚ
deriving DecidableEq

/-- The `defaultdict` default `by_model` bucket. -/
def ModelStats.init : ModelStats := ⟨0, 0, 0, [], []⟩

/-- Folding one result document into its `by_model` bucket
(`analyze-results.py` lines 66-71). -/
def ModelStats.add (b : ModelStats) (r : ResultDoc) : ModelStats :=
  { total_tests := b.total_tests + r.totalTestsD
    passed := b.passed + r.passedD
    failed := b.failed + r.failedD
    scores := b.scores ++ [r.averageScoreD]
    pass_rates := b.pass_rates ++ [r.passRateD] }

/-- A `by_test` bucket of `calculate_stats` (`analyze-results.py`
lines 44-49). -/
structure TestStats where
  models : List String
  scores : List ℚ
  passed_count : Nat
  failed_count : Nat
deriving DecidableEq

/-- The `defaultdict` default `by_test` bucket. -/
def TestStats.init : TestStats := ⟨[], [], 0, 0⟩

/-- Folding one test outcome of model `m` into its `by_test` bucket
(`analyze-results.py` lines 79-85). -/
def TestStats.add (b : TestStats) (m : String) (t : TestOutcome) : TestStats :=
  { models := b.models ++ [m]
    scores := b.scores ++ [t.scoreD]
    passed_count := if t.passedD then b.passed_count + 1 else b.passed_count
    failed_count := if t.passedD then b.failed_count else b.failed_count + 1 }

/-- The `overall` block of the statistics (`analyze-results.py`
lines 50-55 and 87-90). -/
structure Overall where
  total_results : Nat
  models_tested : List String
  average_score : Int
  average_pass_rate : Int
deriving DecidableEq

/-- The statistics dictionary built by `calculate_stats` for a
non-empty input. -/
structure Stats where
  by_model : List (String × ModelStats)
  by_test : List (String × TestStats)
  overall : Overall
deriving DecidableEq

/-- Mutable state of the `for result in results` loop of
`calculate_stats` (lines 36-59: the two defaultdicts, the
`models_tested` set and the two running sums).  The set is kept as its
insertion-ordered list of distinct elements; only its final sorted form
is observable. -/
structure AggState where
  by_model : List (String × ModelStats)
  by_test : List (String × TestStats)
  models_tested : List String
  total_score : ℚ
  total_pass_rate : ℚ
deriving DecidableEq

/-- Inner loop body (`for test in result.get('tests', [])`,
lines 77-85). -/
def addTestOutcome (m : String) (bt : List (String × TestStats)) (t : TestOutcome) :
    List (String × TestStats) :=
  updateAssoc bt t.testIdD TestStats.init (fun b => b.add m t)

/-- Outer loop body of `calculate_stats` (lines 61-85). -/
def stepResult (st : AggState) (r : ResultDoc) : AggState :=
  let model := r.modelName
  { by_model := updateAssoc st.by_model model ModelStats.init (fun b => b.add r)
    by_test := r.testsD.foldl (addTestOutcome model) st.by_test
    models_tested :=
      if model ∈ st.models_tested then st.models_tested
      else st.models_tested ++ [model]
    total_score := st.total_score + r.averageScoreD
    total_pass_rate := st.total_pass_rate + r.passRateD }

/-- `sorted` on a list of strings (lexicographic ascending, stable). -/
def sortStrings (l : List String) : List String :=
  List.insertionSort (fun a b => a ≤ b) l

/-- Body of `calculate_stats` past the emptiness guard
(`analyze-results.py` lines 36-91). -/
def calcStatsCore (results : List ResultDoc) : Stats :=
  let st := results.foldl stepResult ⟨[], [], [], 0, 0⟩
  { by_model := st.by_model
    by_test := st.by_test
    overall :=
      { total_results := results.length
        models_tested := sortStrings st.models_tested
        average_score :=
          if results.length = 0 then 0
          else pyRound (st.total_score / (results.length : ℚ))
        average_pass_rate :=
          if results.length = 0 then 0
          else pyRound (st.total_pass_rate / (results.length : ℚ)) } }

/-- `calculate_stats(results)` (`analyze-results.py` lines 31-92).
On an empty input the Python function returns the empty dict `{}`
(line 34), which carries no `overall`/`by_model`/`by_test` structure at
all; that bare return value is modelled as `none`. -/
def calculate_stats (results : List ResultDoc) : Option Stats :=
  if results.isEmpty then none else some (calcStatsCore results)

/-- Status banner line for EXCELLENT (`analyze-results.py` line 114). -/
def bannerExcellent : String :=
  "✅ **Status**: EXCELLENT - All AI models producing consistent high-quality code"

/-- Status banner line for GOOD (line 116). -/
def bannerGood : String :=
  "⚠️  **Status**: GOOD - Most AI models producing quality code, minor improvements needed"

/-- Status banner line for FAIR (line 118). -/
def bannerFair : String :=
  "⚠️  **Status**: FAIR - Significant quality gaps between AI models"

/-- Status banner line for POOR (line 120). -/
def bannerPoor : String :=
  "❌ **Status**: POOR - Major quality inconsistencies across AI models"

/-- Status banner selection of `generate_summary_markdown`
(`analyze-results.py` lines 112-121), applied to the integer
`overall.average_pass_rate`. -/
def statusBanner (avg_pass_rate : Int) : String :=
  if avg_pass_rate ≥ 95 then bannerExcellent
  else if avg_pass_rate ≥ 85 then bannerGood
  else if avg_pass_rate ≥ 75 then bannerFair
  else bannerPoor

/-- Population variance of a score list (`analyze-results.py`
lines 151-152): mean over `n`, squared deviations summed and divided by
`n` (not `n - 1`). -/
def popVariance (scores : List ℚ) : ℚ :=
  let mean := scores.sum / (scores.length : ℚ)
  (scores.map (fun x => (x - mean) ^ 2)).sum / (scores.length : ℚ)

/-- Consistency cell of the per-test table (`analyze-results.py`
lines 149-156).  The source compares `std_dev = variance ** 0.5` against
10 and 20; since both sides are non-negative this is equivalent to
comparing the variance against 100 and 400, which keeps the definition
executable over `ℚ` (the equivalence with the standard-deviation bounds
is proved in the claim theorem via `Real.sqrt`). -/
def consistencyLabel (scores : List ℚ) : String :=
  if 1 < scores.length then
    if popVariance scores < 100 then "✅ High"
    else if popVariance scores < 400 then "⚠️ Medium"
    else "❌ Low"
  else "N/A"

/-- Per-model rounded average score (`analyze-results.py` line 130). -/
def modelAvgScore (b : ModelStats) : Int :=
  if b.scores.isEmpty then 0 else pyRound (b.scores.sum / (b.scores.length : ℚ))

/-- Per-model rounded average pass rate (`analyze-results.py`
lines 131 and 173). -/
def modelAvgPassRate (b : ModelStats) : Int :=
  if b.pass_rates.isEmpty then 0
  else pyRound (b.pass_rates.sum / (b.pass_rates.length : ℚ))

/-- The `low_performing` list before sorting (`analyze-results.py`
lines 171-175): models of `by_model`, in dict insertion order, whose
rounded average pass rate is strictly below 90. -/
def low_performing (s : Stats) : List (String × Int) :=
  s.by_model.filterMap (fun p =>
    let a := modelAvgPassRate p.2
    if a < 90 then some (p.1, a) else none)

/-- `sorted(low_performing, key=lambda x: x[1])` (line 179):
ascending by the rounded pass rate, stable. -/
def lowPerformingSorted (s : Stats) : List (String × Int) :=
  List.insertionSort (fun a b => a.2 ≤ b.2) (low_performing s)

/-- Failure ratio of a `by_test` bucket as a percentage
(`analyze-results.py` line 191). -/
def failureRate (b : TestStats) : ℚ :=
  ((b.failed_count : ℚ) / ((b.passed_count : ℚ) + (b.failed_count : ℚ))) * 100

/-- The `problematic_tests` list before sorting (`analyze-results.py`
lines 189-193): tests whose failure ratio strictly exceeds 20%. -/
def problematic_tests (s : Stats) : List (String × ℚ) :=
  s.by_test.filterMap (fun p =>
    let fr := failureRate p.2
    if 20 < fr then some (p.1, fr) else none)

/-- `sorted(problematic_tests, key=lambda x: -x[1])` (line 198):
descending by failure ratio, stable. -/
def problematicTestsSorted (s : Stats) : List (String × ℚ) :=
  List.insertionSort (fun a b => b.2 ≤ a.2) (problematic_tests s)

/-- The rendered failure-rate lines (line 199): each problematic test
with its failure ratio rounded to an integer percentage. -/
def failureLines (s : Stats) : List (String × Int) :=
  (problematicTestsSorted s).map (fun p => (p.1, pyRound p.2))

/-- Content of the recommendations section (`analyze-results.py`
lines 166-208): either the single no-action note, or the sorted
low-performing models followed by the sorted problematic tests. -/
inductive Recommendation where
  | noAction
  | actions (lowModels : List (String × Int)) (problemTests : List (String × ℚ))
deriving DecidableEq

/-- Which recommendations block `generate_summary_markdown` emits
(line 166: `if stats['overall']['average_pass_rate'] < 95`). -/
def recommendations (s : Stats) : Recommendation :=
  if s.overall.average_pass_rate < 95 then
    Recommendation.actions (lowPerformingSorted s) (problematicTestsSorted s)
  else Recommendation.noAction

/-- `main` of `analyze-results.py` (lines 220-246), modelled as
(exit code, whether the output file was written).  With no loaded
documents: error to stderr, `sys.exit(1)`, nothing written.  Otherwise
the summary is computed and written and the process ends normally. -/
def analyzeMain (files : List (String × ParseOutcome)) : Nat × Bool :=
  let results := (analyzeLoadResults files).1
  if results.isEmpty then (1, false) else (0, true)

/-- One row stored by the grouping loop of `generate_comparison_report`
(`generate-report.py` lines 34-40). -/
structure CompEntry where
  model : String
  score : ℚ
  passed : Bool
  output : String
  validation : Validation
deriving DecidableEq

/-- One grouping step of `generate_comparison_report` (lines 33-40).
The source subscripts `test['testId']` and `result['model']` directly —
no default — so a missing field raises `KeyError`, modelled by `none`. -/
def addCompEntry (bt : List (String × List CompEntry)) (r : ResultDoc)
    (t : TestOutcome) : Option (List (String × List CompEntry)) := do
  let tid ← t.testId
  let m ← r.model
  pure (updateAssoc bt tid []
    (fun l => l ++ [⟨m, t.scoreD, t.passedD, t.outputD, t.validationD⟩]))

/-- The `by_test` grouping of `generate_comparison_report`
(`generate-report.py` lines 30-40); `none` models an uncaught
`KeyError` aborting report generation. -/
def comparisonByTest (results : List ResultDoc) :
    Option (List (String × List CompEntry)) :=
  results.foldlM
    (fun bt r => r.testsD.foldlM (fun bt2 t => addCompEntry bt2 r t) bt) []

/-- `main` of `generate-report.py` (lines 104-118), modelled as
(exit code, whether the output file was written).  No documents: error,
exit 1.  An uncaught `KeyError` during grouping: the interpreter exits
non-zero before the output file is opened.  Otherwise the report is
written. -/
def reportMain (files : List (String × ParseOutcome)) : Nat × Bool :=
  let results := (reportLoadResults files).1
  if results.isEmpty then (1, false)
  else
    match comparisonByTest results with
    | none => (1, false)
    | some _ => (0, true)

/-- The flattened iteration of the inner test loop of
`calculate_stats`: every (owning model name, test outcome) pair, in
traversal order. -/
def testPairs (results : List ResultDoc) : List (String × TestOutcome) :=
  results.flatMap (fun r => r.testsD.map (fun t => (r.modelName, t)))

theorem lookupD_updateAssoc {β : Type} (l : List (String × β)) (k k2 : String)
    (d : β) (f : β → β) :
    lookupD (updateAssoc l k d f) k2 d =
      if k = k2 then f (lookupD l k d) else lookupD l k2 d := by
  induction l with
  | nil => simp [updateAssoc, lookupD]
  | cons p rest ih =>
      simp only [updateAssoc, lookupD]
      by_cases h1 : p.1 = k
      · simp only [if_pos h1, lookupD, h1]
        by_cases h2 : k = k2 <;> simp [h2]
      · simp only [if_neg h1, lookupD, ih]
        by_cases h2 : k = k2
        · subst h2; simp [h1]
        · simp [h2]

theorem mem_keys_updateAssoc {β : Type} (l : List (String × β)) (k k2 : String)
    (d : β) (f : β → β) :
    k2 ∈ (updateAssoc l k d f).map Prod.fst ↔ k2 = k ∨ k2 ∈ l.map Prod.fst := by
  induction l with
  | nil => simp [updateAssoc]
  | cons p rest ih =>
      simp only [updateAssoc]
      by_cases h1 : p.1 = k
      · simp [h1]
      · simp only [if_neg h1, List.map_cons, List.mem_cons, ih]
        tauto

theorem nodup_keys_updateAssoc {β : Type} (l : List (String × β)) (k : String)
    (d : β) (f : β → β) (h : (l.map Prod.fst).Nodup) :
    ((updateAssoc l k d f).map Prod.fst).Nodup := by
  induction l with
  | nil => simp [updateAssoc]
  | cons p rest ih =>
      simp only [List.map_cons, List.nodup_cons] at h
      simp only [updateAssoc]
      by_cases h1 : p.1 = k
      · simp only [if_pos h1, List.map_cons, List.nodup_cons]
        exact ⟨h1 ▸ h.1, h.2⟩
      · simp only [if_neg h1, List.map_cons, List.nodup_cons]
        refine ⟨?_, ih h.2⟩
        rw [mem_keys_updateAssoc]
        rintro (h2 | h2)
        · exact h1 h2
        · exact h.1 h2

theorem mem_assoc_of_nodup_keys {β : Type} (l : List (String × β)) (k : String)
    (b : β) (d : β) (h : (l.map Prod.fst).Nodup) :
    (k, b) ∈ l ↔ k ∈ l.map Prod.fst ∧ lookupD l k d = b := by
  induction l with
  | nil => simp
  | cons p rest ih =>
      obtain ⟨p1, p2⟩ := p
      simp only [List.map_cons, List.nodup_cons] at h
      constructor
      · intro h2
        rcases List.mem_cons.mp h2 with h3 | h3
        · rw [Prod.mk.injEq] at h3
          obtain ⟨h4, h5⟩ := h3
          subst h4; subst h5
          simp [lookupD]
        · obtain ⟨h4, h5⟩ := (ih h.2).mp h3
          have h6 : p1 ≠ k := fun he => h.1 (he ▸ h4)
          refine ⟨List.mem_cons_of_mem _ h4, ?_⟩
          simpa [lookupD, h6] using h5
      · rintro ⟨h2, h3⟩
        simp only [List.map_cons] at h2
        rcases List.mem_cons.mp h2 with h4 | h4
        · subst h4
          simp only [lookupD, if_pos rfl] at h3
          rw [← h3]
          exact List.mem_cons_self _ _
        · have h6 : p1 ≠ k := fun he => h.1 (he ▸ h4)
          simp only [lookupD, if_neg h6] at h3
          exact List.mem_cons_of_mem _ ((ih h.2).mpr ⟨h4, h3⟩)

theorem byModel_lookup_foldl (results : List ResultDoc) (st : AggState) (m : String) :
    lookupD (results.foldl stepResult st).by_model m ModelStats.init =
      (results.filter (fun r => r.modelName = m)).foldl ModelStats.add
        (lookupD st.by_model m ModelStats.init) := by
  induction results generalizing st with
  | nil => rfl
  | cons r rs ih =>
      rw [List.foldl_cons, ih]
      have hs : lookupD (stepResult st r).by_model m ModelStats.init =
          if r.modelName = m then
            ModelStats.add (lookupD st.by_model r.modelName ModelStats.init) r
          else lookupD st.by_model m ModelStats.init := by
        simp [stepResult, lookupD_updateAssoc]
      rw [hs]
      by_cases h : r.modelName = m
      · subst h; simp [List.filter_cons]
      · simp [List.filter_cons, h]

theorem foldl_ModelStats_add (l : List ResultDoc) (b : ModelStats) :
    l.foldl ModelStats.add b =
      ⟨b.total_tests + (l.map ResultDoc.totalTestsD).sum,
       b.passed + (l.map ResultDoc.passedD).sum,
       b.failed + (l.map ResultDoc.failedD).sum,
       b.scores ++ l.map ResultDoc.averageScoreD,
       b.pass_rates ++ l.map ResultDoc.passRateD⟩ := by
  induction l generalizing b with
  | nil => simp
  | cons r rs ih =>
      rw [List.foldl_cons, ih]
      simp [ModelStats.add, add_assoc]

theorem byTest_foldl (results : List ResultDoc) (st : AggState) :
    (results.foldl stepResult st).by_test =
      (testPairs results).foldl (fun bt p => addTestOutcome p.1 bt p.2) st.by_test := by
  induction results generalizing st with
  | nil => rfl
  | cons r rs ih =>
      rw [List.foldl_cons, ih]
      simp [testPairs, List.foldl_append, List.foldl_map, stepResult]

theorem byTest_lookup_foldl (ps : List (String × TestOutcome))
    (bt : List (String × TestStats)) (tid : String) :
    lookupD (ps.foldl (fun bt2 p => addTestOutcome p.1 bt2 p.2) bt) tid TestStats.init =
      (ps.filter (fun p => p.2.testIdD = tid)).foldl
        (fun b p => b.add p.1 p.2) (lookupD bt tid TestStats.init) := by
  induction ps generalizing bt with
  | nil => rfl
  | cons p ps ih =>
      rw [List.foldl_cons, ih]
      have hs : lookupD (addTestOutcome p.1 bt p.2) tid TestStats.init =
          if p.2.testIdD = tid then
            TestStats.add (lookupD bt p.2.testIdD TestStats.init) p.1 p.2
          else lookupD bt tid TestStats.init := by
        simp [addTestOutcome, lookupD_updateAssoc]
      rw [hs]
      by_cases h : p.2.testIdD = tid
      · subst h; simp [List.filter_cons]
      · simp [List.filter_cons, h]

theorem foldl_TestStats_add (l : List (String × TestOutcome)) (b : TestStats) :
    l.foldl (fun b2 p => TestStats.add b2 p.1 p.2) b =
      ⟨b.models ++ l.map Prod.fst,
       b.scores ++ l.map (fun p => p.2.scoreD),
       b.passed_count + l.countP (fun p => p.2.passedD),
       b.failed_count + l.countP (fun p => !p.2.passedD)⟩ := by
  induction l generalizing b with
  | nil => simp
  | cons p ps ih =>
      rw [List.foldl_cons, ih]
      by_cases h : p.2.passedD = true <;>
        simp [TestStats.add, h, List.countP_cons, Nat.add_assoc, Nat.add_comm]

theorem models_tested_mem_foldl (results : List ResultDoc) (st : AggState)
    (m : String) :
    m ∈ (results.foldl stepResult st).models_tested ↔
      m ∈ st.models_tested ∨ m ∈ results.map ResultDoc.modelName := by
  induction results generalizing st with
  | nil => simp
  | cons r rs ih =>
      rw [List.foldl_cons, ih]
      simp only [stepResult, List.map_cons, List.mem_cons]
      by_cases h : r.modelName ∈ st.models_tested
      · simp only [if_pos h]
        constructor
        · rintro (h2 | h2)
          · exact Or.inl h2
          · exact Or.inr (Or.inr h2)
        · rintro (h2 | h2 | h2)
          · exact Or.inl h2
          · exact Or.inl (h2 ▸ h)
          · exact Or.inr h2
      · simp only [if_neg h, List.mem_append, List.mem_singleton]
        tauto

theorem models_tested_nodup_foldl (results : List ResultDoc) (st : AggState)
    (h : st.models_tested.Nodup) :
    (results.foldl stepResult st).models_tested.Nodup := by
  induction results generalizing st with
  | nil => exact h
  | cons r rs ih =>
      rw [List.foldl_cons]
      apply ih
      simp only [stepResult]
      by_cases hm : r.modelName ∈ st.models_tested
      · simpa [hm] using h
      · simp [hm, List.nodup_append, h]

theorem total_score_foldl (results : List ResultDoc) (st : AggState) :
    (results.foldl stepResult st).total_score =
      st.total_score + (results.map ResultDoc.averageScoreD).sum := by
  induction results generalizing st with
  | nil => simp
  | cons r rs ih =>
      rw [List.foldl_cons, ih]
      simp [stepResult, add_assoc]

theorem total_pass_rate_foldl (results : List ResultDoc) (st : AggState) :
    (results.foldl stepResult st).total_pass_rate =
      st.total_pass_rate + (results.map ResultDoc.passRateD).sum := by
  induction results generalizing st with
  | nil => simp
  | cons r rs ih =>
      rw [List.foldl_cons, ih]
      simp [stepResult, add_assoc]

theorem byModel_keys_foldl (results : List ResultDoc) (st : AggState) (m : String) :
    m ∈ (results.foldl stepResult st).by_model.map Prod.fst ↔
      m ∈ st.by_model.map Prod.fst ∨ m ∈ results.map ResultDoc.modelName := by
  induction results generalizing st with
  | nil => simp
  | cons r rs ih =>
      rw [List.foldl_cons, ih]
      simp only [stepResult, List.map_cons, List.mem_cons, mem_keys_updateAssoc]
      tauto

theorem byTest_keys_foldl (ps : List (String × TestOutcome))
    (bt : List (String × TestStats)) (tid : String) :
    tid ∈ (ps.foldl (fun bt2 p => addTestOutcome p.1 bt2 p.2) bt).map Prod.fst ↔
      tid ∈ bt.map Prod.fst ∨ tid ∈ ps.map (fun p => p.2.testIdD) := by
  induction ps generalizing bt with
  | nil => simp
  | cons p ps ih =>
      rw [List.foldl_cons, ih]
      simp only [addTestOutcome, List.map_cons, List.mem_cons, mem_keys_updateAssoc]
      tauto

theorem byModel_nodup_keys_foldl (results : List ResultDoc) (st : AggState)
    (h : (st.by_model.map Prod.fst).Nodup) :
    ((results.foldl stepResult st).by_model.map Prod.fst).Nodup := by
  induction results generalizing st with
  | nil => exact h
  | cons r rs ih =>
      rw [List.foldl_cons]
      exact ih _ (nodup_keys_updateAssoc _ _ _ _ h)

theorem byTest_nodup_keys_foldl (ps : List (String × TestOutcome))
    (bt : List (String × TestStats)) (h : (bt.map Prod.fst).Nodup) :
    ((ps.foldl (fun bt2 p => addTestOutcome p.1 bt2 p.2) bt).map Prod.fst).Nodup := by
  induction ps generalizing bt with
  | nil => exact h
  | cons p ps ih =>
      rw [List.foldl_cons]
      exact ih _ (nodup_keys_updateAssoc _ _ _ _ h)

theorem check_thresholds_append (m : Int) (init : List Violation)
    (results : List ResultDoc) :
    results.foldl (checkStep m) init = init ++ results.flatMap (checkDocSpec m) := by
  induction results generalizing init with
  | nil => simp
  | cons r rs ih =>
      rw [List.foldl_cons, ih]
      have hstep : checkStep m init r = init ++ checkDocSpec m r := by
        simp only [checkStep, checkDocSpec]
        split_ifs <;> simp
      rw [hstep]
      simp

theorem countP_tf {α : Type} (l : List α) (p : α → Bool) :
    l.countP p + l.countP (fun a => !p a) = l.length := by
  induction l with
  | nil => rfl
  | cons x xs ih =>
      by_cases h : p x = true <;> simp [List.countP_cons, h] <;> omega

theorem analyzeLoad_append (files : List (String × ParseOutcome))
    (a : List ResultDoc) (b : List String) :
    files.foldl analyzeLoadStep (a, b) =
      (a ++ files.filterMap okDoc, b ++ (files.filter isFailB).map analyzeDiag) := by
  induction files generalizing a b with
  | nil => simp
  | cons f fs ih =>
      rw [List.foldl_cons]
      cases hf : f.2 with
      | ok d =>
          rw [show analyzeLoadStep (a, b) f = (a ++ [d], b) by
            simp [analyzeLoadStep, hf]]
          rw [ih]
          simp [okDoc, isFailB, hf, List.filterMap_cons, List.filter_cons]
      | decodeError =>
          rw [show analyzeLoadStep (a, b) f =
              (a, b ++ ["Warning: Could not parse " ++ f.1]) by
            simp [analyzeLoadStep, hf]]
          rw [ih]
          simp [okDoc, isFailB, analyzeDiag, hf, List.filterMap_cons, List.filter_cons]
      | readError e =>
          rw [show analyzeLoadStep (a, b) f =
              (a, b ++ ["Warning: Error loading " ++ f.1 ++ ": " ++ e]) by
            simp [analyzeLoadStep, hf]]
          rw [ih]
          simp [okDoc, isFailB, analyzeDiag, hf, List.filterMap_cons, List.filter_cons]

theorem checkLoad_append (files : List (String × ParseOutcome))
    (a : List ResultDoc) (b : List String) :
    files.foldl checkLoadStep (a, b) = (a ++ files.filterMap okDoc, b) := by
  induction files generalizing a b with
  | nil => simp
  | cons f fs ih =>
      rw [List.foldl_cons]
      cases hf : f.2 with
      | ok d =>
          rw [show checkLoadStep (a, b) f = (a ++ [d], b) by simp [checkLoadStep, hf]]
          rw [ih]
          simp [okDoc, hf, List.filterMap_cons]
      | decodeError =>
          rw [show checkLoadStep (a, b) f = (a, b) by simp [checkLoadStep, hf]]
          rw [ih]
          simp [okDoc, hf, List.filterMap_cons]
      | readError e =>
          rw [show checkLoadStep (a, b) f = (a, b) by simp [checkLoadStep, hf]]
          rw [ih]
          simp [okDoc, hf, List.filterMap_cons]

theorem reportLoad_append (files : List (String × ParseOutcome))
    (a : List ResultDoc) (b : List String) :
    files.foldl reportLoadStep (a, b) = (a ++ files.filterMap okDoc, b) := by
  induction files generalizing a b with
  | nil => simp
  | cons f fs ih =>
      rw [List.foldl_cons]
      cases hf : f.2 with
      | ok d =>
          rw [show reportLoadStep (a, b) f = (a ++ [d], b) by
            simp [reportLoadStep, hf]]
          rw [ih]
          simp [okDoc, hf, List.filterMap_cons]
      | decodeError =>
          rw [show reportLoadStep (a, b) f = (a, b) by simp [reportLoadStep, hf]]
          rw [ih]
          simp [okDoc, hf, List.filterMap_cons]
      | readError e =>
          rw [show reportLoadStep (a, b) f = (a, b) by simp [reportLoadStep, hf]]
          rw [ih]
          simp [okDoc, hf, List.filterMap_cons]

/-- The specification example document: `{model:"X", averageScore:85,
passRate:95}`. -/
def docX : ResultDoc := ⟨some "X", none, none, none, some 85, some 95, none⟩

/-- A healthy document used to exercise the zero-violation path. -/
def docGood : ResultDoc :=
  ⟨some "G", some 10, some 10, some 0, some 95, some 95, none⟩

/-- C1: `check_thresholds` is the concatenation, in document order, of
per-document checks; a document strictly below `minScore` on
`averageScore` (default 0) yields one "score" violation, independently a
document strictly below on `passRate` (default 0) yields one "pass_rate"
violation, the score violation first; on `minScore = 90` and the single
document `{model:"X", averageScore:85, passRate:95}` exactly one "score"
violation for model X is produced and the run exits non-zero. -/
theorem C1_threshold_checker :
    (∀ (results : List ResultDoc) (min_score : Int),
        check_thresholds results min_score =
          results.flatMap (checkDocSpec min_score))
    ∧ check_thresholds [docX] 90 =
        [{ model := "X", vtype := "score", value := 85, threshold := 90 }]
    ∧ (checkMain [("x.json", ParseOutcome.ok docX)] 90).1 = 1 := by
  refine ⟨fun results m => ?_, by decide, by decide⟩
  simpa using check_thresholds_append m [] results

/-- C2 counterexample: on the empty input, `calculate_stats` does not
return a populated statistics structure with zeroed `overall` fields and
empty mappings — the Python function returns the bare empty dict `{}`
(line 34), which has no `overall` key at all; accessing
`stats['overall']['average_score']` on it would raise `KeyError`. -/
theorem C2_counterexample : calculate_stats [] = none := rfl

/-- C2 (amended): for the empty input sequence `calculate_stats` returns
the empty dict (modelled `none`), a defined terminal value but not an
`AggregatedStats` structure; for every non-empty input it returns the
populated structure built by the aggregation loop. -/
theorem C2_empty_input :
    calculate_stats [] = none
    ∧ (∀ results : List ResultDoc, calculate_stats results = none ↔ results = [])
    ∧ (∀ results : List ResultDoc, results ≠ [] →
        calculate_stats results = some (calcStatsCore results)) := by
  refine ⟨rfl, fun results => ?_, fun results h => ?_⟩
  · constructor
    · intro h
      by_cases he : results.isEmpty
      · exact List.isEmpty_iff.mp he
      · simp [calculate_stats, he] at h
    · intro h
      subst h
      rfl
  · have he : results.isEmpty = false := by
      simpa [List.isEmpty_iff] using h
    simp [calculate_stats, he]

/-- C2 witness: instantiating the non-empty case at a concrete
document. -/
theorem C2_witness : calculate_stats [docX] = some (calcStatsCore [docX]) :=
  C2_empty_input.2.2 [docX] (by decide)

/-- C6: the status banner thresholds `overall.average_pass_rate`
top-down with inclusive lower bounds 95/85/75, first match winning, and
the four band lines are pairwise distinct; 95, 85, 75, 74 select
EXCELLENT, GOOD, FAIR, POOR respectively. -/
theorem C6_status_banner :
    (∀ p : Int, 95 ≤ p → statusBanner p = bannerExcellent)
    ∧ (∀ p : Int, 85 ≤ p → p < 95 → statusBanner p = bannerGood)
    ∧ (∀ p : Int, 75 ≤ p → p < 85 → statusBanner p = bannerFair)
    ∧ (∀ p : Int, p < 75 → statusBanner p = bannerPoor)
    ∧ statusBanner 95 = bannerExcellent ∧ statusBanner 85 = bannerGood
    ∧ statusBanner 75 = bannerFair ∧ statusBanner 74 = bannerPoor
    ∧ bannerExcellent ≠ bannerGood ∧ bannerExcellent ≠ bannerFair
    ∧ bannerExcellent ≠ bannerPoor ∧ bannerGood ≠ bannerFair
    ∧ bannerGood ≠ bannerPoor ∧ bannerFair ≠ bannerPoor := by
  refine ⟨fun p h => ?_, fun p h1 h2 => ?_, fun p h1 h2 => ?_, fun p h => ?_,
    by decide, by decide, by decide, by decide, by decide, by decide, by decide,
    by decide, by decide, by decide⟩
  · simp only [statusBanner]
    rw [if_pos h]
  · simp only [statusBanner]
    rw [if_neg (by omega), if_pos h1]
  · simp only [statusBanner]
    rw [if_neg (by omega), if_neg (by omega), if_pos h1]
  · simp only [statusBanner]
    rw [if_neg (by omega), if_neg (by omega), if_neg (by omega)]

/-- C6 witness: the EXCELLENT band applied at 100. -/
theorem C6_witness : statusBanner 100 = bannerExcellent :=
  C6_status_banner.1 100 (by decide)

/-- C8: with zero loaded documents the summary and comparison entry
points exit 1 without writing an output file, while the threshold-check
entry point warns and exits 0 listing no violations; a non-empty load
with zero violations also exits 0 but without the warning, so the two
cases differ only in the warning flag. -/
theorem C8_empty_input_behaviour :
    (∀ files : List (String × ParseOutcome),
        ((analyzeLoadResults files).1 = [] → analyzeMain files = (1, false))
        ∧ ((reportLoadResults files).1 = [] → reportMain files = (1, false))
        ∧ (∀ m : Int, (checkLoadResults files).1 = [] →
            checkMain files m = (0, true, [])))
    ∧ (∀ (files : List (String × ParseOutcome)) (m : Int),
        (checkLoadResults files).1 ≠ [] →
        check_thresholds (checkLoadResults files).1 m = [] →
        checkMain files m = (0, false, [])) := by
  constructor
  · intro files
    refine ⟨fun h => ?_, fun h => ?_, fun m h => ?_⟩
    · simp [analyzeMain, h]
    · simp [reportMain, h]
    · simp [checkMain, h]
  · intro files m h1 h2
    simp [checkMain, List.isEmpty_iff, h1, h2]

/-- C8 witness: the three entry points on an empty directory, plus the
zero-violation success case. -/
theorem C8_witness :
    analyzeMain [] = (1, false) ∧ reportMain [] = (1, false)
    ∧ checkMain [] 90 = (0, true, [])
    ∧ checkMain [("ok.json", ParseOutcome.ok docGood)] 90 = (0, false, []) :=
  ⟨(C8_empty_input_behaviour.1 []).1 rfl,
   (C8_empty_input_behaviour.1 []).2.1 rfl,
   (C8_empty_input_behaviour.1 []).2.2 90 rfl,
   C8_empty_input_behaviour.2 [("ok.json", ParseOutcome.ok docGood)] 90
     (by decide) (by decide)⟩

/-- A file whose contents fail to parse. -/
def badFile : String × ParseOutcome := ("bad.json", ParseOutcome.decodeError)

/-- C9 counterexample: the claim says each loader in all three tools
emits a diagnostic per failing file, but the loaders of
`check-thresholds.py` and `generate-report.py` run
`except Exception: continue` — on a failing file they emit nothing. -/
theorem C9_counterexample :
    isFailB badFile = true
    ∧ (checkLoadResults [badFile]).2 = []
    ∧ (reportLoadResults [badFile]).2 = [] := by decide

/-- C9 (amended): every loader returns exactly the successfully parsed
documents in discovery order and never aborts on a bad file; only the
summary tool's loader (`analyze-results.py`) emits one stderr diagnostic
per failing file — the threshold-check and comparison loaders skip
failing files silently. -/
theorem C9_loader_behaviour (files : List (String × ParseOutcome)) :
    (analyzeLoadResults files).1 = files.filterMap okDoc
    ∧ (checkLoadResults files).1 = files.filterMap okDoc
    ∧ (reportLoadResults files).1 = files.filterMap okDoc
    ∧ (analyzeLoadResults files).2 = (files.filter isFailB).map analyzeDiag
    ∧ (checkLoadResults files).2 = []
    ∧ (reportLoadResults files).2 = [] := by
  have h1 := analyzeLoad_append files [] []
  have h2 := checkLoad_append files [] []
  have h3 := reportLoad_append files [] []
  refine ⟨?_, ?_, ?_, ?_, ?_, ?_⟩ <;>
    simp [analyzeLoadResults, checkLoadResults, reportLoadResults, h1, h2, h3]

theorem foldlM_option_none {α β : Type} (f : β → α → Option β) (x : α)
    (hf : ∀ b, f b x = none) :
    ∀ l : List α, x ∈ l → ∀ b, l.foldlM f b = none := by
  intro l
  induction l with
  | nil => intro hx; cases hx
  | cons y ys ih =>
      intro hx b
      rcases List.mem_cons.mp hx with h | h
      · subst h
        simp [hf b]
      · cases hy : f b y with
        | none => simp [hy]
        | some b2 =>
            simp only [List.foldlM_cons, hy, Option.bind_eq_bind, Option.some_bind]
            exact ih h b2

/-- A document whose single test outcome has no `testId` field. -/
def missingIdDoc : ResultDoc :=
  ⟨some "X", none, none, none, none, none,
   some [⟨none, some 50, some true, none, none⟩]⟩

/-- A document with no `model` field but one complete test outcome. -/
def noModelDoc : ResultDoc :=
  ⟨none, none, none, none, none, none,
   some [⟨some "t1", some 10, some false, none, none⟩]⟩

/-- C3 counterexample: the comparison reporter does not resolve a
missing `testId` to "unknown" — `generate-report.py` line 34 subscripts
`test['testId']` directly, so grouping aborts with `KeyError` (modelled
`none`) instead of completing report generation. -/
theorem C3_counterexample : comparisonByTest [missingIdDoc] = none := rfl

/-- C3 (amended): `calculate_stats` buckets a document with a missing
`model` under the key "unknown" and a test outcome with a missing
`testId` under the key "unknown"; the comparison reporter, however, does
not default — any grouped test outcome whose `testId` is absent, or
whose owning document lacks `model`, aborts `generate_comparison_report`
with a `KeyError` (modelled `none`). -/
theorem C3_missing_key_defaults :
    (∀ rs : List ResultDoc, ∀ r ∈ rs, r.model = none →
        "unknown" ∈ (calcStatsCore rs).by_model.map Prod.fst)
    ∧ (∀ rs : List ResultDoc, ∀ r ∈ rs, ∀ t ∈ r.testsD, t.testId = none →
        "unknown" ∈ (calcStatsCore rs).by_test.map Prod.fst)
    ∧ (∀ rs : List ResultDoc, ∀ r ∈ rs, ∀ t ∈ r.testsD,
        t.testId = none ∨ r.model = none → comparisonByTest rs = none) := by
  refine ⟨fun rs r hr hm => ?_, fun rs r hr t ht hid => ?_,
    fun rs r hr t ht hbad => ?_⟩
  · simp only [calcStatsCore]
    rw [byModel_keys_foldl]
    right
    exact List.mem_map.mpr ⟨r, hr, by simp [ResultDoc.modelName, hm]⟩
  · simp only [calcStatsCore]
    rw [byTest_foldl]
    rw [byTest_keys_foldl]
    right
    refine List.mem_map.mpr ⟨(r.modelName, t), ?_, by simp [TestOutcome.testIdD, hid]⟩
    simp only [testPairs, List.mem_flatMap]
    exact ⟨r, hr, List.mem_map.mpr ⟨t, ht, rfl⟩⟩
  · have hinner : ∀ bt : List (String × List CompEntry),
        r.testsD.foldlM (fun bt2 t2 => addCompEntry bt2 r t2) bt = none := by
      intro bt
      refine foldlM_option_none _ t (fun bt2 => ?_) r.testsD ht bt
      rcases hbad with hid | hm
      · simp [addCompEntry, hid]
      · cases h2 : t.testId <;> simp [addCompEntry, h2, hm]
    simp only [comparisonByTest]
    exact foldlM_option_none _ r hinner rs hr []

/-- C3 witness: the aggregator really buckets a model-less document
under "unknown", and the comparison grouping really aborts on a
test outcome without a `testId`. -/
theorem C3_witness :
    "unknown" ∈ (calcStatsCore [noModelDoc]).by_model.map Prod.fst
    ∧ comparisonByTest [missingIdDoc] = none := by
  refine ⟨C3_missing_key_defaults.1 [noModelDoc] noModelDoc ?_ ?_,
    C3_missing_key_defaults.2.2 [missingIdDoc] missingIdDoc ?_
      ⟨none, some 50, some true, none, none⟩ ?_ (Or.inl rfl)⟩
  · simp
  · rfl
  · simp
  · simp [missingIdDoc, ResultDoc.testsD]

/-- C10: in the statistics of any (necessarily non-empty) successfully
aggregated input, every `by_test` bucket satisfies
`passed_count + failed_count = |scores| = |models| ≥ 1`; hence the
per-test average-score denominator and the failure-ratio denominator
`passed_count + failed_count` used by the summary reporter are
non-zero. -/
theorem C10_by_test_invariant (results : List ResultDoc) (s : Stats)
    (hs : calculate_stats results = some s) :
    ∀ p ∈ s.by_test,
      p.2.passed_count + p.2.failed_count = p.2.scores.length
      ∧ p.2.scores.length = p.2.models.length
      ∧ 1 ≤ p.2.passed_count + p.2.failed_count
      ∧ ((p.2.passed_count : ℚ) + (p.2.failed_count : ℚ)) ≠ 0
      ∧ ((p.2.scores.length : ℚ)) ≠ 0 := by
  have hcore : s = calcStatsCore results := by
    by_cases he : results.isEmpty
    · simp [calculate_stats, he] at hs
    · simp [calculate_stats, he] at hs
      exact hs.symm
  subst hcore
  rintro ⟨tid, b⟩ hp
  have hbt : (calcStatsCore results).by_test =
      (testPairs results).foldl (fun bt p => addTestOutcome p.1 bt p.2) [] := by
    simp only [calcStatsCore]
    exact byTest_foldl results ⟨[], [], [], 0, 0⟩
  rw [hbt] at hp
  have hnodup :
      (((testPairs results).foldl (fun bt p => addTestOutcome p.1 bt p.2)
        []).map Prod.fst).Nodup :=
    byTest_nodup_keys_foldl (testPairs results) [] (by simp)
  obtain ⟨hkey, hlook⟩ :=
    (mem_assoc_of_nodup_keys _ tid b TestStats.init hnodup).mp hp
  rw [byTest_lookup_foldl, foldl_TestStats_add] at hlook
  rw [byTest_keys_foldl] at hkey
  simp only [List.map_nil, List.not_mem_nil, false_or] at hkey
  obtain ⟨q, hq, hqid⟩ := List.mem_map.mp hkey
  have hql : q ∈ (testPairs results).filter (fun p => p.2.testIdD = tid) :=
    List.mem_filter.mpr ⟨hq, by simp [hqid]⟩
  have hlen :
      1 ≤ ((testPairs results).filter (fun p => p.2.testIdD = tid)).length :=
    List.length_pos.mpr (List.ne_nil_of_mem hql)
  have hcount :
      ((testPairs results).filter (fun p => p.2.testIdD = tid)).countP
          (fun p => p.2.passedD)
        + ((testPairs results).filter (fun p => p.2.testIdD = tid)).countP
          (fun p => !p.2.passedD)
        = ((testPairs results).filter (fun p => p.2.testIdD = tid)).length :=
    countP_tf _ _
  rw [← hlook]
  simp only [lookupD, TestStats.init, List.nil_append, Nat.zero_add,
    List.length_map]
  exact ⟨hcount, by trivial, by omega, by
      rw [← Nat.cast_add]
      exact Nat.cast_ne_zero.mpr (by omega), by
    exact Nat.cast_ne_zero.mpr (by omega)⟩

/-- C10 witness: the invariant at the concrete "unknown" bucket of a
one-document aggregation. -/
theorem C10_witness :
    1 ≤ (⟨["X"], [50], 1, 0⟩ : TestStats).passed_count
        + (⟨["X"], [50], 1, 0⟩ : TestStats).failed_count :=
  (C10_by_test_invariant [missingIdDoc] (calcStatsCore [missingIdDoc]) rfl
    ("unknown", ⟨["X"], [50], 1, 0⟩) (by decide)).2.2.1

theorem sqrt_popVariance_lt_ten (scores : List ℚ) :
    Real.sqrt ((popVariance scores : ℚ) : ℝ) < 10 ↔ popVariance scores < 100 := by
  rw [Real.sqrt_lt' (by norm_num : (0 : ℝ) < 10)]
  have h100 : ((10 : ℝ)) ^ 2 = (((100 : ℚ) : ℝ)) := by norm_num
  rw [h100, Rat.cast_lt]

theorem sqrt_popVariance_lt_twenty (scores : List ℚ) :
    Real.sqrt ((popVariance scores : ℚ) : ℝ) < 20 ↔ popVariance scores < 400 := by
  rw [Real.sqrt_lt' (by norm_num : (0 : ℝ) < 20)]
  have h400 : ((20 : ℝ)) ^ 2 = (((400 : ℚ) : ℝ)) := by norm_num
  rw [h400, Rat.cast_lt]

/-- C5: for a test bucket with at least two score samples the
consistency cell is exactly the band of the population standard
deviation (variance over `n`, not `n - 1`): strictly below 10 gives
"High", otherwise strictly below 20 gives "Medium", otherwise "Low";
fewer than two samples give "N/A"; `[90, 90, 90]` is "High" and
`[50, 100]` (standard deviation 25) is "Low". -/
theorem C5_consistency :
    (∀ scores : List ℚ, 1 < scores.length →
        ((consistencyLabel scores = "✅ High" ↔
            Real.sqrt ((popVariance scores : ℚ) : ℝ) < 10)
          ∧ (consistencyLabel scores = "⚠️ Medium" ↔
            10 ≤ Real.sqrt ((popVariance scores : ℚ) : ℝ)
              ∧ Real.sqrt ((popVariance scores : ℚ) : ℝ) < 20)
          ∧ (consistencyLabel scores = "❌ Low" ↔
            20 ≤ Real.sqrt ((popVariance scores : ℚ) : ℝ))))
    ∧ (∀ scores : List ℚ, scores.length ≤ 1 → consistencyLabel scores = "N/A")
    ∧ consistencyLabel [90, 90, 90] = "✅ High"
    ∧ consistencyLabel [50, 100] = "❌ Low" := by
  refine ⟨fun scores h => ?_, fun scores h => ?_,
    by norm_num [consistencyLabel, popVariance],
    by norm_num [consistencyLabel, popVariance]⟩
  · simp only [consistencyLabel, if_pos h]
    by_cases h1 : popVariance scores < 100
    · rw [if_pos h1]
      refine ⟨?_, ?_, ?_⟩
      · simp [sqrt_popVariance_lt_ten, h1]
      · constructor
        · intro he
          exact absurd he (by decide)
        · rintro ⟨hge, _⟩
          exact absurd ((sqrt_popVariance_lt_ten scores).mpr h1) (not_lt.mpr hge)
      · constructor
        · intro he
          exact absurd he (by decide)
        · intro hge
          have := lt_of_lt_of_le (by norm_num : (10 : ℝ) < 20)
            (le_trans hge (le_refl _))
          exact absurd ((sqrt_popVariance_lt_ten scores).mpr h1)
            (not_lt.mpr (le_trans (by norm_num : (10 : ℝ) ≤ 20) hge))
    · by_cases h2 : popVariance scores < 400
      · rw [if_neg h1, if_pos h2]
        have hge10 : 10 ≤ Real.sqrt ((popVariance scores : ℚ) : ℝ) :=
          not_lt.mp (fun hlt => h1 ((sqrt_popVariance_lt_ten scores).mp hlt))
        have hlt20 : Real.sqrt ((popVariance scores : ℚ) : ℝ) < 20 :=
          (sqrt_popVariance_lt_twenty scores).mpr h2
        refine ⟨?_, ?_, ?_⟩
        · constructor
          · intro he
            exact absurd he (by decide)
          · intro hlt
            exact absurd hlt (not_lt.mpr hge10)
        · simp [hge10, hlt20]
        · constructor
          · intro he
            exact absurd he (by decide)
          · intro hge
            exact absurd hlt20 (not_lt.mpr hge)
      · rw [if_neg h1, if_neg h2]
        have hge20 : 20 ≤ Real.sqrt ((popVariance scores : ℚ) : ℝ) :=
          not_lt.mp (fun hlt => h2 ((sqrt_popVariance_lt_twenty scores).mp hlt))
        refine ⟨?_, ?_, ?_⟩
        · constructor
          · intro he
            exact absurd he (by decide)
          · intro hlt
            exact absurd hlt (not_lt.mpr (le_trans (by norm_num) hge20))
        · constructor
          · intro he
            exact absurd he (by decide)
          · rintro ⟨_, hlt⟩
            exact absurd hlt (not_lt.mpr hge20)
        · simp [hge20]
  · simp [consistencyLabel, Nat.not_lt.mpr h]

/-- C5 witness: the Low band and the N/A rule at concrete samples. -/
theorem C5_witness :
    (consistencyLabel [50, 100] = "❌ Low" ↔
      20 ≤ Real.sqrt ((popVariance [50, 100] : ℚ) : ℝ))
    ∧ consistencyLabel [42] = "N/A" :=
  ⟨(C5_consistency.1 [50, 100] (by decide)).2.2,
   C5_consistency.2.1 [42] (by decide)⟩

instance : IsTotal (String × Int) (fun a b => a.2 ≤ b.2) :=
  ⟨fun a b => le_total a.2 b.2⟩

instance : IsTrans (String × Int) (fun a b => a.2 ≤ b.2) :=
  ⟨fun _ _ _ h1 h2 => le_trans h1 h2⟩

instance : IsTotal (String × ℚ) (fun a b => b.2 ≤ a.2) :=
  ⟨fun a b => le_total b.2 a.2⟩

instance : IsTrans (String × ℚ) (fun a b => b.2 ≤ a.2) :=
  ⟨fun _ _ _ h1 h2 => le_trans h2 h1⟩

/-- A document whose run is clearly below every quality band. -/
def docLow : ResultDoc :=
  ⟨some "L", some 10, some 5, some 5, some 50, some 50,
   some [⟨some "t1", some 50, some false, none, none⟩]⟩

/-- C7: when `overall.average_pass_rate` is strictly below 95 the
recommendations section consists of exactly the models of `by_model`
whose rounded average pass rate is strictly below 90, sorted ascending
by that rate, followed by exactly the tests of `by_test` whose failure
ratio `failed/(passed+failed)` (as a percentage) strictly exceeds 20,
sorted descending by ratio and rendered with the ratio rounded to an
integer; at 95 or above a single no-action note is emitted instead. -/
theorem C7_recommendations (rs : List ResultDoc) (s : Stats)
    (_hs : s = calcStatsCore rs) :
    (s.overall.average_pass_rate < 95 →
        recommendations s =
          Recommendation.actions (lowPerformingSorted s) (problematicTestsSorted s)
        ∧ (∀ (m : String) (a : Int), (m, a) ∈ lowPerformingSorted s ↔
            ∃ b, (m, b) ∈ s.by_model ∧ a = modelAvgPassRate b ∧ a < 90)
        ∧ List.Sorted (fun p q : String × Int => p.2 ≤ q.2) (lowPerformingSorted s)
        ∧ (∀ (tid : String) (fr : ℚ), (tid, fr) ∈ problematicTestsSorted s ↔
            ∃ b, (tid, b) ∈ s.by_test ∧ fr = failureRate b ∧ 20 < fr)
        ∧ List.Sorted (fun p q : String × ℚ => q.2 ≤ p.2) (problematicTestsSorted s)
        ∧ (∀ (tid : String) (k : Int), (tid, k) ∈ failureLines s ↔
            ∃ fr, (tid, fr) ∈ problematicTestsSorted s ∧ k = pyRound fr))
    ∧ (95 ≤ s.overall.average_pass_rate →
        recommendations s = Recommendation.noAction) := by
  constructor
  · intro h95
    refine ⟨by simp [recommendations, h95], fun m a => ?_, ?_, fun tid fr => ?_, ?_,
      fun tid k => ?_⟩
    · rw [lowPerformingSorted, List.mem_insertionSort]
      constructor
      · intro hmem
        obtain ⟨⟨m0, b⟩, hb, hf⟩ := List.mem_filterMap.mp hmem
        by_cases hlt : modelAvgPassRate b < 90
        · simp only [low_performing] at hf
          rw [if_pos hlt] at hf
          rw [Option.some.injEq, Prod.mk.injEq] at hf
          exact ⟨b, hf.1 ▸ hb, hf.2.symm, hf.2 ▸ hlt⟩
        · simp only [low_performing] at hf
          rw [if_neg hlt] at hf
          cases hf
      · rintro ⟨b, hb, rfl, hlt⟩
        exact List.mem_filterMap.mpr ⟨(m, b), hb, by simp [hlt]⟩
    · exact List.sorted_insertionSort _ _
    · rw [problematicTestsSorted, List.mem_insertionSort]
      constructor
      · intro hmem
        obtain ⟨⟨t0, b⟩, hb, hf⟩ := List.mem_filterMap.mp hmem
        by_cases hlt : 20 < failureRate b
        · simp only [problematic_tests] at hf
          rw [if_pos hlt] at hf
          rw [Option.some.injEq, Prod.mk.injEq] at hf
          exact ⟨b, hf.1 ▸ hb, hf.2.symm, hf.2 ▸ hlt⟩
        · simp only [problematic_tests] at hf
          rw [if_neg hlt] at hf
          cases hf
      · rintro ⟨b, hb, rfl, hlt⟩
        exact List.mem_filterMap.mpr ⟨(tid, b), hb, by simp [hlt]⟩
    · exact List.sorted_insertionSort _ _
    · rw [failureLines]
      constructor
      · intro hmem
        obtain ⟨⟨t0, fr⟩, hfr, hf⟩ := List.mem_map.mp hmem
        rw [Prod.mk.injEq] at hf
        exact ⟨fr, hf.1 ▸ hfr, hf.2.symm⟩
      · rintro ⟨fr, hfr, rfl⟩
        exact List.mem_map.mpr ⟨(tid, fr), hfr, rfl⟩
  · intro h95
    simp [recommendations, not_lt.mpr h95]

/-- C7 witness: a single low run yields the action block with its model
and its failing test. -/
theorem C7_witness :
    recommendations (calcStatsCore [docLow]) =
      Recommendation.actions (lowPerformingSorted (calcStatsCore [docLow]))
        (problematicTestsSorted (calcStatsCore [docLow])) :=
  ((C7_recommendations [docLow] _ rfl).1 (by
    norm_num [calcStatsCore, stepResult, pyRound, ResultDoc.passRateD, docLow])).1

/-- The `by_model` bucket a reader of the statistics dict observes for
model `m` (the defaultdict read used by the summary reporter). -/
def byModelAt (s : Stats) (m : String) : ModelStats :=
  lookupD s.by_model m ModelStats.init

/-- The `by_test` bucket a reader of the statistics dict observes for
test `tid`. -/
def byTestAt (s : Stats) (tid : String) : TestStats :=
  lookupD s.by_test tid TestStats.init

theorem byModelAt_calcStatsCore (l : List ResultDoc) (m : String) :
    byModelAt (calcStatsCore l) m =
      ⟨((l.filter (fun r => r.modelName = m)).map ResultDoc.totalTestsD).sum,
       ((l.filter (fun r => r.modelName = m)).map ResultDoc.passedD).sum,
       ((l.filter (fun r => r.modelName = m)).map ResultDoc.failedD).sum,
       (l.filter (fun r => r.modelName = m)).map ResultDoc.averageScoreD,
       (l.filter (fun r => r.modelName = m)).map ResultDoc.passRateD⟩ := by
  simp only [byModelAt, calcStatsCore]
  rw [byModel_lookup_foldl, foldl_ModelStats_add]
  simp [lookupD, ModelStats.init]

theorem byTestAt_calcStatsCore (l : List ResultDoc) (tid : String) :
    byTestAt (calcStatsCore l) tid =
      ⟨((testPairs l).filter (fun p => p.2.testIdD = tid)).map Prod.fst,
       ((testPairs l).filter (fun p => p.2.testIdD = tid)).map
         (fun p => p.2.scoreD),
       ((testPairs l).filter (fun p => p.2.testIdD = tid)).countP
         (fun p => p.2.passedD),
       ((testPairs l).filter (fun p => p.2.testIdD = tid)).countP
         (fun p => !p.2.passedD)⟩ := by
  simp only [byTestAt, calcStatsCore]
  rw [byTest_foldl, byTest_lookup_foldl, foldl_TestStats_add]
  simp [lookupD, TestStats.init]

/-- C4: permuting the input documents leaves every summed counter of
`by_model` and `by_test`, the document count, the sorted
`models_tested`, and the two rounded overall averages identical, and
preserves each `scores`/`pass_rates` sequence up to permutation (hence
its sum, hence its mean). -/
theorem C4_order_independence (rs rs2 : List ResultDoc) (h : rs.Perm rs2) :
    (∀ m : String,
        (byModelAt (calcStatsCore rs) m).total_tests =
          (byModelAt (calcStatsCore rs2) m).total_tests
        ∧ (byModelAt (calcStatsCore rs) m).passed =
          (byModelAt (calcStatsCore rs2) m).passed
        ∧ (byModelAt (calcStatsCore rs) m).failed =
          (byModelAt (calcStatsCore rs2) m).failed
        ∧ ((byModelAt (calcStatsCore rs) m).scores).Perm
            ((byModelAt (calcStatsCore rs2) m).scores)
        ∧ ((byModelAt (calcStatsCore rs) m).pass_rates).Perm
            ((byModelAt (calcStatsCore rs2) m).pass_rates)
        ∧ ((byModelAt (calcStatsCore rs) m).scores).sum =
            ((byModelAt (calcStatsCore rs2) m).scores).sum
        ∧ ((byModelAt (calcStatsCore rs) m).pass_rates).sum =
            ((byModelAt (calcStatsCore rs2) m).pass_rates).sum)
    ∧ (∀ tid : String,
        (byTestAt (calcStatsCore rs) tid).passed_count =
          (byTestAt (calcStatsCore rs2) tid).passed_count
        ∧ (byTestAt (calcStatsCore rs) tid).failed_count =
          (byTestAt (calcStatsCore rs2) tid).failed_count
        ∧ ((byTestAt (calcStatsCore rs) tid).scores).Perm
            ((byTestAt (calcStatsCore rs2) tid).scores)
        ∧ ((byTestAt (calcStatsCore rs) tid).models).Perm
            ((byTestAt (calcStatsCore rs2) tid).models)
        ∧ ((byTestAt (calcStatsCore rs) tid).scores).sum =
            ((byTestAt (calcStatsCore rs2) tid).scores).sum)
    ∧ (calcStatsCore rs).overall.total_results =
        (calcStatsCore rs2).overall.total_results
    ∧ (calcStatsCore rs).overall.models_tested =
        (calcStatsCore rs2).overall.models_tested
    ∧ (calcStatsCore rs).overall.average_score =
        (calcStatsCore rs2).overall.average_score
    ∧ (calcStatsCore rs).overall.average_pass_rate =
        (calcStatsCore rs2).overall.average_pass_rate := by
  have hpairs : (testPairs rs).Perm (testPairs rs2) := h.flatMap_right _
  refine ⟨fun m => ?_, fun tid => ?_, ?_, ?_, ?_, ?_⟩
  · rw [byModelAt_calcStatsCore, byModelAt_calcStatsCore]
    have hf := h.filter (fun r => decide (r.modelName = m))
    exact ⟨((hf.map ResultDoc.totalTestsD).sum_eq),
      ((hf.map ResultDoc.passedD).sum_eq),
      ((hf.map ResultDoc.failedD).sum_eq),
      hf.map ResultDoc.averageScoreD,
      hf.map ResultDoc.passRateD,
      ((hf.map ResultDoc.averageScoreD).sum_eq),
      ((hf.map ResultDoc.passRateD).sum_eq)⟩
  · rw [byTestAt_calcStatsCore, byTestAt_calcStatsCore]
    have hf := hpairs.filter (fun p => decide (p.2.testIdD = tid))
    exact ⟨hf.countP_eq _, hf.countP_eq _,
      hf.map (fun p => p.2.scoreD), hf.map Prod.fst,
      ((hf.map (fun p => p.2.scoreD)).sum_eq)⟩
  · simp only [calcStatsCore]
    exact h.length_eq
  · simp only [calcStatsCore]
    have hnd1 : (rs.foldl stepResult ⟨[], [], [], 0, 0⟩).models_tested.Nodup :=
      models_tested_nodup_foldl rs _ List.nodup_nil
    have hnd2 : (rs2.foldl stepResult ⟨[], [], [], 0, 0⟩).models_tested.Nodup :=
      models_tested_nodup_foldl rs2 _ List.nodup_nil
    have hmem : ∀ m : String,
        m ∈ (rs.foldl stepResult ⟨[], [], [], 0, 0⟩).models_tested ↔
        m ∈ (rs2.foldl stepResult ⟨[], [], [], 0, 0⟩).models_tested := by
      intro m
      rw [models_tested_mem_foldl, models_tested_mem_foldl]
      have := (h.map ResultDoc.modelName).mem_iff (a := m)
      simp only [this]
    have hperm :
        (rs.foldl stepResult ⟨[], [], [], 0, 0⟩).models_tested.Perm
          (rs2.foldl stepResult ⟨[], [], [], 0, 0⟩).models_tested :=
      (List.perm_ext_iff_of_nodup hnd1 hnd2).mpr hmem
    exact List.eq_of_perm_of_sorted
      (((List.perm_insertionSort _ _).trans hperm).trans
        (List.perm_insertionSort _ _).symm)
      (List.sorted_insertionSort _ _) (List.sorted_insertionSort _ _)
  · simp only [calcStatsCore]
    rw [total_score_foldl, total_score_foldl, h.length_eq,
      (h.map ResultDoc.averageScoreD).sum_eq]
  · simp only [calcStatsCore]
    rw [total_pass_rate_foldl, total_pass_rate_foldl, h.length_eq,
      (h.map ResultDoc.passRateD).sum_eq]

/-- C4 witness: swapping two concrete documents leaves the per-model
totals and the sorted model list unchanged. -/
theorem C4_witness :
    (byModelAt (calcStatsCore [docLow, docGood]) "L").total_tests =
      (byModelAt (calcStatsCore [docGood, docLow]) "L").total_tests
    ∧ (calcStatsCore [docLow, docGood]).overall.models_tested =
      (calcStatsCore [docGood, docLow]).overall.models_tested :=
  ⟨((C4_order_independence [docLow, docGood] [docGood, docLow]
      (List.Perm.swap docGood docLow [])).1 "L").1,
   (C4_order_independence [docLow, docGood] [docGood, docLow]
      (List.Perm.swap docGood docLow [])).2.2.2.1⟩

end AIResults
